import Mathlib

/-!
Verification development for the q2-cutadapt repository.

The repository's only source file under `src/` is
`q2_cutadapt/plugin_setup.py`: the registration layer that declares four
operations (trim_single, trim_paired, demux_single, demux_paired) on a
QIIME 2 plugin object, with their input/output artifact types, parameter
type expressions and documentation strings.  We embed that registration
data shallowly: the QIIME 2 primitive type expressions used by the file
(`Int`, `Int % Range(lo, hi)`, `Float % Range(lo, hi)`, `Bool`, `Str`,
`List[Str]`, `Threads`, `MetadataColumn[Categorical]`) become an inductive
`QType` with an executable acceptance semantics, and each
`plugin.methods.register_function(...)` call becomes a concrete
`RegisteredFunction` value transcribed field by field from the source.

The adapter modules `q2_cutadapt._trim` and `q2_cutadapt._demux` that the
registration refers to are not included under `src/`; the definitions
about their behaviour are modelled from the specification and are marked
`Modelled from the spec:` in their doc comments.
-/

namespace Q2Cutadapt

/-- A QIIME 2 `Range(start, end, inclusive_start=…, inclusive_end=…)`
predicate expression, as applied to `Int` or `Float` primitives in
`plugin_setup.py`.  `none` for a bound means the bound is `None`
(absent).  QIIME 2's defaults are `inclusive_start=True`,
`inclusive_end=False`. -/
structure RangeC where
  start? : Option ℚ
  end? : Option ℚ
  inclusiveStart : Bool := true
  inclusiveEnd : Bool := false
deriving DecidableEq, Repr

/-- Whether a rational value satisfies a `Range` predicate expression. -/
def RangeC.contains (r : RangeC) (q : ℚ) : Bool :=
  (match r.start? with
    | none => true
    | some s => if r.inclusiveStart then decide (s ≤ q) else decide (s < q))
  &&
  (match r.end? with
    | none => true
    | some e => if r.inclusiveEnd then decide (q ≤ e) else decide (q < e))

/-- The QIIME 2 primitive parameter type expressions that occur in
`plugin_setup.py`.  `TInt none` is a bare `Int`, `TInt (some r)` is
`Int % Range(...)`, and similarly for `Float`. -/
inductive QType where
  | TInt (r : Option RangeC)
  | TFloat (r : Option RangeC)
  | TBool
  | TStr
  | TListStr
  | TThreads
  | TMetadataColumnCategorical
deriving DecidableEq, Repr

/-- Which integers a parameter type accepts.  Only `Int`-kinded types
accept integers; a bare `Int` accepts every integer, a ranged `Int`
those inside the range. -/
def QType.acceptsInt : QType → ℤ → Bool
  | QType.TInt none, _ => true
  | QType.TInt (some r), n => r.contains (n : ℚ)
  | _, _ => false

/-- Which rational values a `Float`-kinded parameter type accepts. -/
def QType.acceptsFloat : QType → ℚ → Bool
  | QType.TFloat none, _ => true
  | QType.TFloat (some r), q => r.contains q
  | _, _ => false

/-- The framework artifact types mentioned in `plugin_setup.py`. -/
inductive AType where
  | SampleDataSequencesWithQuality
  | SampleDataPairedEndSequencesWithQuality
  | MultiplexedSingleEndBarcodeInSequence
  | MultiplexedPairedEndBarcodeInSequence
deriving DecidableEq, Repr

/-- One `plugin.methods.register_function(...)` call of
`plugin_setup.py`.  Inputs, parameters and outputs are kept in source
order as association lists from names to types.  The long documentation
bodies of `input_descriptions`, `parameter_descriptions` and
`output_descriptions` are opaque prose; we record which keys are
documented (in source order), which is what the registration schema
constrains. -/
structure RegisteredFunction where
  functionName : String
  inputs : List (String × AType)
  parameters : List (String × QType)
  outputs : List (String × AType)
  inputDescriptionKeys : List String
  parameterDescriptionKeys : List String
  outputDescriptionKeys : List String
  name : String
  description : String
  exampleKeys : List String
deriving DecidableEq, Repr

/-- `Float % Range(0, 1, inclusive_start=True, inclusive_end=True)`. -/
def floatRange01 : QType :=
  QType.TFloat (some { start? := some 0, end? := some 1,
                       inclusiveStart := true, inclusiveEnd := true })

/-- `Float % Range(0, None)`. -/
def floatRange0None : QType :=
  QType.TFloat (some { start? := some 0, end? := none })

/-- `Int % Range(1, None)`. -/
def intRange1None : QType :=
  QType.TInt (some { start? := some 1, end? := none })

/-- `Int % Range(0, None)`. -/
def intRange0None : QType :=
  QType.TInt (some { start? := some 0, end? := none })

/-- The registration of `q2_cutadapt._trim.trim_single`
(`plugin_setup.py`, lines 51-169). -/
def trim_single : RegisteredFunction where
  functionName := "trim_single"
  inputs := [("demultiplexed_sequences", AType.SampleDataSequencesWithQuality)]
  parameters :=
    [ ("adapter", QType.TListStr),
      ("front", QType.TListStr),
      ("anywhere", QType.TListStr),
      ("cut", QType.TInt none),
      ("error_rate", floatRange01),
      ("indels", QType.TBool),
      ("times", intRange1None),
      ("overlap", intRange1None),
      ("match_read_wildcards", QType.TBool),
      ("match_adapter_wildcards", QType.TBool),
      ("minimum_length", intRange1None),
      ("discard_untrimmed", QType.TBool),
      ("max_expected_errors", floatRange0None),
      ("max_n", floatRange0None),
      ("quality_cutoff_3end", intRange0None),
      ("quality_cutoff_5end", intRange0None),
      ("quality_base", intRange0None),
      ("cores", QType.TThreads) ]
  outputs := [("trimmed_sequences", AType.SampleDataSequencesWithQuality)]
  inputDescriptionKeys := ["demultiplexed_sequences"]
  parameterDescriptionKeys :=
    [ "adapter", "front", "anywhere", "cut", "error_rate", "indels",
      "times", "overlap", "match_read_wildcards",
      "match_adapter_wildcards", "minimum_length", "discard_untrimmed",
      "max_expected_errors", "max_n", "quality_cutoff_3end",
      "quality_cutoff_5end", "quality_base", "cores" ]
  outputDescriptionKeys := ["trimmed_sequences"]
  name := "Find and remove adapters in demultiplexed single-end sequences."
  description :=
    "Search demultiplexed single-end sequences for adapters and remove them. The parameter descriptions in this method are adapted from the official cutadapt docs - please see those docs at https://cutadapt.readthedocs.io for complete details."
  exampleKeys := []

/-- The registration of `q2_cutadapt._trim.trim_paired`
(`plugin_setup.py`, lines 171-329). -/
def trim_paired : RegisteredFunction where
  functionName := "trim_paired"
  inputs :=
    [("demultiplexed_sequences", AType.SampleDataPairedEndSequencesWithQuality)]
  parameters :=
    [ ("adapter_f", QType.TListStr),
      ("front_f", QType.TListStr),
      ("anywhere_f", QType.TListStr),
      ("adapter_r", QType.TListStr),
      ("front_r", QType.TListStr),
      ("anywhere_r", QType.TListStr),
      ("forward_cut", QType.TInt none),
      ("reverse_cut", QType.TInt none),
      ("error_rate", floatRange01),
      ("indels", QType.TBool),
      ("times", intRange1None),
      ("overlap", intRange1None),
      ("match_read_wildcards", QType.TBool),
      ("match_adapter_wildcards", QType.TBool),
      ("minimum_length", intRange1None),
      ("discard_untrimmed", QType.TBool),
      ("max_expected_errors", floatRange0None),
      ("max_n", floatRange0None),
      ("quality_cutoff_3end", intRange0None),
      ("quality_cutoff_5end", intRange0None),
      ("quality_base", intRange0None),
      ("cores", QType.TThreads) ]
  outputs :=
    [("trimmed_sequences", AType.SampleDataPairedEndSequencesWithQuality)]
  inputDescriptionKeys := ["demultiplexed_sequences"]
  parameterDescriptionKeys :=
    [ "adapter_f", "front_f", "anywhere_f", "adapter_r", "front_r",
      "anywhere_r", "forward_cut", "reverse_cut", "error_rate", "indels",
      "times", "overlap", "match_read_wildcards",
      "match_adapter_wildcards", "minimum_length", "discard_untrimmed",
      "max_expected_errors", "max_n", "quality_cutoff_3end",
      "quality_cutoff_5end", "quality_base", "cores" ]
  outputDescriptionKeys := ["trimmed_sequences"]
  name := "Find and remove adapters in demultiplexed paired-end sequences."
  description :=
    "Search demultiplexed paired-end sequences for adapters and remove them. The parameter descriptions in this method are adapted from the official cutadapt docs - please see those docs at https://cutadapt.readthedocs.io for complete details."
  exampleKeys := []

/-- The registration of `q2_cutadapt._demux.demux_single`
(`plugin_setup.py`, lines 331-392). -/
def demux_single : RegisteredFunction where
  functionName := "demux_single"
  inputs := [("seqs", AType.MultiplexedSingleEndBarcodeInSequence)]
  parameters :=
    [ ("barcodes", QType.TMetadataColumnCategorical),
      ("error_rate", floatRange01),
      ("anchor_barcode", QType.TBool),
      ("batch_size", intRange0None),
      ("minimum_length", intRange1None),
      ("cut", QType.TInt none),
      ("cores", QType.TThreads) ]
  outputs :=
    [ ("per_sample_sequences", AType.SampleDataSequencesWithQuality),
      ("untrimmed_sequences", AType.MultiplexedSingleEndBarcodeInSequence) ]
  inputDescriptionKeys := ["seqs"]
  parameterDescriptionKeys :=
    [ "cores", "barcodes", "error_rate", "anchor_barcode", "batch_size",
      "minimum_length", "cut" ]
  outputDescriptionKeys := ["per_sample_sequences", "untrimmed_sequences"]
  name := "Demultiplex single-end sequence data with barcodes in-sequence."
  description :=
    "Demultiplex sequence data (i.e., map barcode reads to sample ids). Barcodes are expected to be located within the sequence data (versus the header, or a separate barcode file)."
  exampleKeys := ["demux_single"]

/-- The registration of `q2_cutadapt._demux.demux_paired`
(`plugin_setup.py`, lines 394-479). -/
def demux_paired : RegisteredFunction where
  functionName := "demux_paired"
  inputs := [("seqs", AType.MultiplexedPairedEndBarcodeInSequence)]
  parameters :=
    [ ("forward_barcodes", QType.TMetadataColumnCategorical),
      ("reverse_barcodes", QType.TMetadataColumnCategorical),
      ("forward_cut", QType.TInt none),
      ("reverse_cut", QType.TInt none),
      ("error_rate", floatRange01),
      ("anchor_forward_barcode", QType.TBool),
      ("anchor_reverse_barcode", QType.TBool),
      ("batch_size", intRange0None),
      ("minimum_length", intRange1None),
      ("mixed_orientation", QType.TBool),
      ("cores", QType.TThreads) ]
  outputs :=
    [ ("per_sample_sequences", AType.SampleDataPairedEndSequencesWithQuality),
      ("untrimmed_sequences", AType.MultiplexedPairedEndBarcodeInSequence) ]
  inputDescriptionKeys := ["seqs"]
  parameterDescriptionKeys :=
    [ "cores", "forward_barcodes", "reverse_barcodes", "forward_cut",
      "reverse_cut", "anchor_forward_barcode", "anchor_reverse_barcode",
      "error_rate", "batch_size", "minimum_length", "mixed_orientation" ]
  outputDescriptionKeys := ["per_sample_sequences", "untrimmed_sequences"]
  name := "Demultiplex paired-end sequence data with barcodes in-sequence."
  description :=
    "Demultiplex sequence data (i.e., map barcode reads to sample ids). Barcodes are expected to be located within the sequence data (versus the header, or a separate barcode file)."
  exampleKeys := ["paired"]

/-- The plugin object built at the top of `plugin_setup.py` (lines
39-49) together with the four `register_function` calls, in source
order.  The `version` argument is read from the package at runtime and
the citations from `citations.bib`; neither carries registration
structure, so they are not modelled. -/
structure Plugin where
  name : String
  website : String
  package : String
  description : String
  shortDescription : String
  methods : List RegisteredFunction
deriving DecidableEq, Repr

/-- The `plugin` value of `plugin_setup.py` with its four registered
methods. -/
def plugin : Plugin where
  name := "cutadapt"
  website := "https://github.com/qiime2/q2-cutadapt"
  package := "q2_cutadapt"
  description :=
    "This QIIME 2 plugin uses cutadapt to work with adapters (e.g. barcodes, primers) in sequence data."
  shortDescription :=
    "Plugin for removing adapter sequences, primers, and other unwanted sequence from sequence data."
  methods := [trim_single, trim_paired, demux_single, demux_paired]

/-! ### Spec-modelled behaviour of the adapter modules

The modules `q2_cutadapt._demux` and `q2_cutadapt._trim` that implement
the registered callables are not part of `src/`; the definitions below
are modelled from the specification. -/

/-- Modelled from the spec: `q2_cutadapt._demux` is not under `src/`.
Demultiplexing "assign[s] multiplexed reads to per-sample output files
based on embedded barcode sequences": the barcode column is a list of
(sample id, barcode) pairs in metadata order, and a read is assigned to
the first sample whose barcode occurs at the start of the read. -/
def matchSample (barcodes : List (String × String)) (r : String) :
    Option String :=
  (barcodes.find? fun p => p.2.isPrefixOf r).map Prod.fst

/-- Modelled from the spec: the batch_size parameter splits the barcode
column into consecutive fixed-size batches of `b` samples; `b = 0` keeps
every sample in one batch ("Set to 0 to process all samples at once"). -/
def toBatches {α : Type} (b : Nat) : List α → List (List α)
  | [] => []
  | x :: xs =>
    if _h : b = 0 then [x :: xs]
    else (x :: xs).take b :: toBatches b ((x :: xs).drop b)
termination_by l => l.length
decreasing_by
  simp only [List.length_drop, List.length_cons]
  omega

/-- Modelled from the spec: batched demultiplexing performs one
external-tool invocation per batch of barcodes.  An invocation assigns
the reads matched to the batch's samples, and the reads unmatched to
every barcode of the batch become the untrimmed output, which is the
input of the next invocation.  Returns the accumulated (read, sample)
assignment pairs and the final untrimmed reads. -/
def demuxRun (chunks : List (List (String × String))) (reads : List String) :
    List (String × String) × List String :=
  match chunks with
  | [] => ([], reads)
  | c :: cs =>
    let matched := reads.filterMap fun r => (matchSample c r).map fun s => (r, s)
    let untrimmed := reads.filter fun r => (matchSample c r).isNone
    let rest := demuxRun cs untrimmed
    (matched ++ rest.1, rest.2)

/-- The sample-to-file mapping of a single all-at-once invocation on a
barcode column: each read paired with the sample it is written to. -/
def demuxMapping (barcodes : List (String × String)) (reads : List String) :
    List (String × String) :=
  reads.filterMap fun r => (matchSample barcodes r).map fun s => (r, s)

/-- The untrimmed output of a single all-at-once invocation: the reads
unmatched to every barcode. -/
def demuxUntrimmed (barcodes : List (String × String)) (reads : List String) :
    List String :=
  reads.filter fun r => (matchSample barcodes r).isNone

/-- Modelled from the spec: the external tool produces an exit code and
output files when invoked on a command line. -/
structure ToolRun where
  exitCode : Nat
  files : List String
deriving DecidableEq, Repr

/-- A framework artifact wrapping the files the external tool wrote. -/
structure Artifact where
  files : List String
deriving DecidableEq, Repr

/-- Modelled from the spec: each registered operation is argument
marshaling, a single subprocess invocation of the external tool, and
wrapping of the resulting files into a framework artifact; a non-zero
exit code is propagated as a user-facing error "without local recovery
or retry".  The external tool itself is an opaque collaborator, passed
as a function from argument lists to run results.  The second component
counts the subprocess invocations performed for the call. -/
def runOperation (marshal : List String → List ℤ → List String)
    (tool : List String → ToolRun) (input : List String) (params : List ℤ) :
    Except String Artifact × Nat :=
  let args := marshal input params
  let run := tool args
  if run.exitCode = 0 then
    (Except.ok ⟨run.files⟩, 1)
  else
    (Except.error ("cutadapt exited with non-zero return code "
      ++ toString run.exitCode), 1)

/-- Modelled from the spec: a command-line token is a flag or a value;
the thread-count value is carried as the number itself. -/
inductive CliToken where
  | flag (s : String)
  | natVal (n : Nat)
deriving DecidableEq, Repr

/-- Modelled from the spec: "a thread/process count parameter is
forwarded as-is" to the external tool's command line. -/
def coresArgs (cores : Nat) : List CliToken :=
  [CliToken.flag "--cores", CliToken.natVal cores]

/-! ### Lemmas about the demultiplexing model -/

theorem matchSample_nil (r : String) : matchSample [] r = none := rfl

theorem matchSample_append (c d : List (String × String)) (r : String) :
    matchSample (c ++ d) r = (matchSample c r).or (matchSample d r) := by
  unfold matchSample
  rw [List.find?_append]
  cases c.find? fun p => p.2.isPrefixOf r <;> simp [Option.or]

theorem toBatches_flatten {α : Type} (b : Nat) (l : List α) :
    (toBatches b l).flatten = l := by
  refine toBatches.induct b (fun l => (toBatches b l).flatten = l) ?_ ?_ ?_ l
  · simp [toBatches]
  · intro x xs h
    simp [toBatches, h]
  · intro x xs h ih
    simp [toBatches, h, ih]

theorem demuxUntrimmed_append (c d : List (String × String))
    (reads : List String) :
    demuxUntrimmed (c ++ d) reads =
      demuxUntrimmed d (demuxUntrimmed c reads) := by
  induction reads with
  | nil => rfl
  | cons r rs ih =>
    simp only [demuxUntrimmed, List.filter_cons] at ih ⊢
    rw [matchSample_append]
    cases hc : matchSample c r <;> cases hd : matchSample d r <;>
      simp_all [Option.or, demuxUntrimmed]

theorem demuxMapping_cons_some {c : List (String × String)} {r : String}
    {s : String} (hc : matchSample c r = some s) (rs : List String) :
    demuxMapping c (r :: rs) = (r, s) :: demuxMapping c rs := by
  simp [demuxMapping, hc]

theorem demuxMapping_cons_none {c : List (String × String)} {r : String}
    (hc : matchSample c r = none) (rs : List String) :
    demuxMapping c (r :: rs) = demuxMapping c rs := by
  simp [demuxMapping, hc]

theorem demuxUntrimmed_cons_some {c : List (String × String)} {r : String}
    {s : String} (hc : matchSample c r = some s) (rs : List String) :
    demuxUntrimmed c (r :: rs) = demuxUntrimmed c rs := by
  simp [demuxUntrimmed, hc]

theorem demuxUntrimmed_cons_none {c : List (String × String)} {r : String}
    (hc : matchSample c r = none) (rs : List String) :
    demuxUntrimmed c (r :: rs) = r :: demuxUntrimmed c rs := by
  simp [demuxUntrimmed, hc]

theorem demuxMapping_append (c d : List (String × String))
    (reads : List String) :
    (demuxMapping (c ++ d) reads).Perm
      (demuxMapping c reads ++ demuxMapping d (demuxUntrimmed c reads)) := by
  induction reads with
  | nil => simp [demuxMapping, demuxUntrimmed]
  | cons r rs ih =>
    rcases hc : matchSample c r with _ | s
    · rcases hd : matchSample d r with _ | s
      · have hcd : matchSample (c ++ d) r = none := by
          rw [matchSample_append, hc, hd]; rfl
        rw [demuxMapping_cons_none hcd, demuxMapping_cons_none hc,
          demuxUntrimmed_cons_none hc, demuxMapping_cons_none hd]
        exact ih
      · have hcd : matchSample (c ++ d) r = some s := by
          rw [matchSample_append, hc, hd]; rfl
        rw [demuxMapping_cons_some hcd, demuxMapping_cons_none hc,
          demuxUntrimmed_cons_none hc, demuxMapping_cons_some hd]
        exact (ih.cons (r, s)).trans List.perm_middle.symm
    · have hcd : matchSample (c ++ d) r = some s := by
        rw [matchSample_append, hc]; rfl
      rw [demuxMapping_cons_some hcd, demuxMapping_cons_some hc,
        demuxUntrimmed_cons_some hc]
      exact ih.cons (r, s)

theorem demuxRun_canonical (chunks : List (List (String × String)))
    (reads : List String) :
    (demuxRun chunks reads).1.Perm (demuxMapping chunks.flatten reads) ∧
    (demuxRun chunks reads).2 = demuxUntrimmed chunks.flatten reads := by
  induction chunks generalizing reads with
  | nil =>
    constructor
    · simp [demuxRun, demuxMapping, matchSample_nil]
    · simp [demuxRun, demuxUntrimmed, matchSample_nil]
  | cons c cs ih =>
    obtain ⟨ih1, ih2⟩ := ih (demuxUntrimmed c reads)
    have hflat : (c :: cs).flatten = c ++ cs.flatten := by simp
    constructor
    · show (demuxMapping c reads ++
          (demuxRun cs (demuxUntrimmed c reads)).1).Perm _
      rw [hflat]
      exact (ih1.append_left (demuxMapping c reads)).trans
        (demuxMapping_append c cs.flatten reads).symm
    · show (demuxRun cs (demuxUntrimmed c reads)).2 = _
      rw [ih2, hflat, demuxUntrimmed_append]

/-- A registered operation has a non-empty parameter schema, its
parameter, input and output names are exactly the documented keys, and
its name and description strings are non-empty. -/
def schemaDocumented (op : RegisteredFunction) : Bool :=
  !op.parameters.isEmpty &&
  (op.parameters.map Prod.fst).all (fun k => op.parameterDescriptionKeys.contains k) &&
  op.parameterDescriptionKeys.all (fun k => (op.parameters.map Prod.fst).contains k) &&
  (op.inputs.map Prod.fst).all (fun k => op.inputDescriptionKeys.contains k) &&
  (op.outputs.map Prod.fst).all (fun k => op.outputDescriptionKeys.contains k) &&
  !(op.name == "") && !(op.description == "")

/-- A parameter type is an unconstrained numeric primitive: a bare `Int`
or a bare `Float` with no `Range` predicate attached. -/
def unconstrainedNumeric : QType → Bool
  | QType.TInt none => true
  | QType.TFloat none => true
  | _ => false

/-! ### Claim theorems -/

/-- Claim C1: given the marshaled command line for fixed inputs and
parameters, a successful operation's output artifact wraps exactly the
files the external tool produced for that command line, and the
operation performs no transformation of its own: its result depends on
the tool only through the tool's behaviour on that command line. -/
theorem operation_output_matches_tool_output
    (marshal : List String → List ℤ → List String)
    (tool : List String → ToolRun) (input : List String) (params : List ℤ)
    (h : (tool (marshal input params)).exitCode = 0) :
    (runOperation marshal tool input params).1 =
      Except.ok ⟨(tool (marshal input params)).files⟩ ∧
    ∀ tool₂ : List String → ToolRun,
      tool₂ (marshal input params) = tool (marshal input params) →
      runOperation marshal tool₂ input params =
        runOperation marshal tool input params := by
  constructor
  · simp [runOperation, h]
  · intro tool₂ ht
    simp [runOperation, ht]

/-- Witness for C1: an identity marshaler and a tool echoing its
arguments as output files with exit code 0. -/
theorem operation_output_matches_tool_output_witness :
    (runOperation (fun i _ => i) (fun a => ⟨0, a⟩) ["reads.fastq"] []).1 =
      Except.ok ⟨["reads.fastq"]⟩ :=
  (operation_output_matches_tool_output (fun i _ => i) (fun a => ⟨0, a⟩)
    ["reads.fastq"] [] rfl).1

/-- Claim C2: for every barcode column, read list and batch size b > 0,
batched demultiplexing produces the same sample-to-file mapping as a
single all-at-once run (batch_size = 0): the multiset of read-to-sample
assignments is the same, and the final unmatched reads are identical. -/
theorem demux_batched_matches_unbatched (b : Nat) (hb : 0 < b)
    (barcodes : List (String × String)) (reads : List String) :
    (demuxRun (toBatches b barcodes) reads).1.Perm
        (demuxRun (toBatches 0 barcodes) reads).1 ∧
    (demuxRun (toBatches b barcodes) reads).2 =
      (demuxRun (toBatches 0 barcodes) reads).2 := by
  have _hpos := hb
  obtain ⟨h1, h2⟩ := demuxRun_canonical (toBatches b barcodes) reads
  obtain ⟨g1, g2⟩ := demuxRun_canonical (toBatches 0 barcodes) reads
  rw [toBatches_flatten] at h1 h2 g1 g2
  exact ⟨h1.trans g1.symm, h2.trans g2.symm⟩

/-- Witness for C2: two samples demultiplexed in batches of one versus
all at once. -/
theorem demux_batched_matches_unbatched_witness :
    (demuxRun (toBatches 1 [("s1", "AACC"), ("s2", "GGTT")])
        ["AACCTG", "GGTTAC", "TTTT"]).1.Perm
      (demuxRun (toBatches 0 [("s1", "AACC"), ("s2", "GGTT")])
        ["AACCTG", "GGTTAC", "TTTT"]).1 ∧
    (demuxRun (toBatches 1 [("s1", "AACC"), ("s2", "GGTT")])
        ["AACCTG", "GGTTAC", "TTTT"]).2 =
      (demuxRun (toBatches 0 [("s1", "AACC"), ("s2", "GGTT")])
        ["AACCTG", "GGTTAC", "TTTT"]).2 :=
  demux_batched_matches_unbatched 1 (by decide)
    [("s1", "AACC"), ("s2", "GGTT")] ["AACCTG", "GGTTAC", "TTTT"]

/-- Claim C3: all four registered operations declare error_rate with
the declarative type Float % Range(0, 1, inclusive_start=True,
inclusive_end=True), and that type accepts a value exactly when it lies
in the closed interval [0, 1]. -/
theorem error_rate_accepted_iff_in_unit_interval :
    trim_single.parameters.lookup "error_rate" = some floatRange01 ∧
    trim_paired.parameters.lookup "error_rate" = some floatRange01 ∧
    demux_single.parameters.lookup "error_rate" = some floatRange01 ∧
    demux_paired.parameters.lookup "error_rate" = some floatRange01 ∧
    ∀ q : ℚ, floatRange01.acceptsFloat q = true ↔ 0 ≤ q ∧ q ≤ 1 := by
  refine ⟨rfl, rfl, rfl, rfl, ?_⟩
  intro q
  simp [floatRange01, QType.acceptsFloat, RangeC.contains]

/-- Claim C4: wherever the count parameters times, overlap and
minimum_length are declared, their declarative type is
Int % Range(1, None), which accepts an integer exactly when it is at
least 1; both trimming operations declare all three, and both
demultiplexing operations declare minimum_length. -/
theorem count_parameters_accepted_iff_positive :
    trim_single.parameters.lookup "times" = some intRange1None ∧
    trim_single.parameters.lookup "overlap" = some intRange1None ∧
    trim_single.parameters.lookup "minimum_length" = some intRange1None ∧
    trim_paired.parameters.lookup "times" = some intRange1None ∧
    trim_paired.parameters.lookup "overlap" = some intRange1None ∧
    trim_paired.parameters.lookup "minimum_length" = some intRange1None ∧
    demux_single.parameters.lookup "minimum_length" = some intRange1None ∧
    demux_paired.parameters.lookup "minimum_length" = some intRange1None ∧
    ∀ n : ℤ, intRange1None.acceptsInt n = true ↔ 1 ≤ n := by
  refine ⟨rfl, rfl, rfl, rfl, rfl, rfl, rfl, rfl, ?_⟩
  intro n
  show (decide ((1 : ℚ) ≤ (n : ℚ)) && true) = true ↔ 1 ≤ n
  rw [Bool.and_true, decide_eq_true_eq]
  exact ⟨fun h => by exact_mod_cast h, fun h => by exact_mod_cast h⟩

/-- Claim C5: when the external tool's subprocess invocation exits with
a non-zero code, the operation fails with a user-facing error, and the
tool is invoked exactly once for the call: no local recovery, no
retry. -/
theorem nonzero_exit_propagates_without_retry
    (marshal : List String → List ℤ → List String)
    (tool : List String → ToolRun) (input : List String) (params : List ℤ)
    (h : (tool (marshal input params)).exitCode ≠ 0) :
    (∃ msg : String, (runOperation marshal tool input params).1 =
      Except.error msg) ∧
    (runOperation marshal tool input params).2 = 1 := by
  constructor
  · refine ⟨"cutadapt exited with non-zero return code "
      ++ toString (tool (marshal input params)).exitCode, ?_⟩
    simp [runOperation, h]
  · simp [runOperation, h]

/-- Witness for C5: a tool exiting with code 1. -/
theorem nonzero_exit_propagates_without_retry_witness :
    (∃ msg : String, (runOperation (fun i _ => i) (fun a => ⟨1, a⟩)
        ["reads.fastq"] []).1 = Except.error msg) ∧
    (runOperation (fun i _ => i) (fun a => ⟨1, a⟩) ["reads.fastq"] []).2 = 1 :=
  nonzero_exit_propagates_without_retry (fun i _ => i) (fun a => ⟨1, a⟩)
    ["reads.fastq"] [] (by decide)

/-- Claim C6: the plugin registers exactly the four operations
trim_single, trim_paired, demux_single and demux_paired, in that order
and no others, and each has a non-empty parameter schema whose
parameters, inputs and outputs all carry documentation strings,
together with non-empty name and description strings. -/
theorem plugin_registers_exactly_four_operations :
    plugin.methods.map RegisteredFunction.functionName =
      ["trim_single", "trim_paired", "demux_single", "demux_paired"] ∧
    plugin.methods.length = 4 ∧
    plugin.methods.all schemaDocumented = true :=
  ⟨rfl, rfl, by decide⟩

/-- Claim C7: exactly the two demultiplexing operations declare
batch_size, with declarative type Int % Range(0, None), which accepts
an integer exactly when it is non-negative; batch size 0 keeps every
sample in a single batch, and a positive batch size b bounds every
batch by b samples.  Neither trimming operation declares batch_size. -/
theorem batch_size_declared_only_for_demux :
    demux_single.parameters.lookup "batch_size" = some intRange0None ∧
    demux_paired.parameters.lookup "batch_size" = some intRange0None ∧
    trim_single.parameters.lookup "batch_size" = none ∧
    trim_paired.parameters.lookup "batch_size" = none ∧
    (∀ n : ℤ, intRange0None.acceptsInt n = true ↔ 0 ≤ n) ∧
    (∀ (x : String × String) (l : List (String × String)),
      toBatches 0 (x :: l) = [x :: l]) ∧
    (∀ b : Nat, 0 < b → ∀ (l c : List (String × String)),
      c ∈ toBatches b l → c.length ≤ b) := by
  refine ⟨rfl, rfl, rfl, rfl, ?_, ?_, ?_⟩
  · intro n
    show (decide ((0 : ℚ) ≤ (n : ℚ)) && true) = true ↔ 0 ≤ n
    rw [Bool.and_true, decide_eq_true_eq]
    exact ⟨fun h => by exact_mod_cast h, fun h => by exact_mod_cast h⟩
  · intro x l
    simp [toBatches]
  · intro b hb l
    refine toBatches.induct b
      (fun l => ∀ c ∈ toBatches b l, c.length ≤ b) ?_ ?_ ?_ l
    · intro c hc
      simp [toBatches] at hc
    · intro x xs h
      exact absurd h (by omega)
    · intro x xs h ih c hc
      simp only [toBatches, h, dite_false] at hc
      rcases List.mem_cons.mp hc with hc | hc
      · subst hc
        exact List.length_take_le b (x :: xs)
      · exact ih c hc

/-- Witness for C7: a non-negative batch size accepted, a zero batch
size keeping one batch, and a batch of size one bounded by one. -/
theorem batch_size_declared_only_for_demux_witness :
    intRange0None.acceptsInt 5 = true ∧
    toBatches 0 [("s1", "AA")] = [[("s1", "AA")]] ∧
    ([("s1", "AA")] : List (String × String)).length ≤ 1 :=
  ⟨(batch_size_declared_only_for_demux.2.2.2.2.1 5).mpr (by decide),
   batch_size_declared_only_for_demux.2.2.2.2.2.1 ("s1", "AA") [],
   batch_size_declared_only_for_demux.2.2.2.2.2.2 1 (by decide)
     [("s1", "AA"), ("s2", "CC")] [("s1", "AA")] (by simp [toBatches])⟩

/-- Claim C8: every one of the four registered operations declares a
cores parameter of the framework thread-count type, and the supplied
value is forwarded unchanged as the external tool's thread count. -/
theorem cores_declared_and_forwarded_as_is :
    trim_single.parameters.lookup "cores" = some QType.TThreads ∧
    trim_paired.parameters.lookup "cores" = some QType.TThreads ∧
    demux_single.parameters.lookup "cores" = some QType.TThreads ∧
    demux_paired.parameters.lookup "cores" = some QType.TThreads ∧
    ∀ n : Nat, coresArgs n = [CliToken.flag "--cores", CliToken.natVal n] :=
  ⟨rfl, rfl, rfl, rfl, fun _ => rfl⟩

/-- Claim C9: in every operation the parameters declared with an
unconstrained numeric type are exactly the base-removal parameters
(cut, or forward_cut and reverse_cut), their type is the bare `Int`,
and that type accepts every integer, negative values and zero
included; every other numeric parameter carries a Range predicate. -/
theorem cut_parameters_unconstrained_int :
    ((trim_single.parameters.filter fun p =>
      unconstrainedNumeric p.2).map Prod.fst) = ["cut"] ∧
    ((trim_paired.parameters.filter fun p =>
      unconstrainedNumeric p.2).map Prod.fst) = ["forward_cut", "reverse_cut"] ∧
    ((demux_single.parameters.filter fun p =>
      unconstrainedNumeric p.2).map Prod.fst) = ["cut"] ∧
    ((demux_paired.parameters.filter fun p =>
      unconstrainedNumeric p.2).map Prod.fst) = ["forward_cut", "reverse_cut"] ∧
    trim_single.parameters.lookup "cut" = some (QType.TInt none) ∧
    trim_paired.parameters.lookup "forward_cut" = some (QType.TInt none) ∧
    trim_paired.parameters.lookup "reverse_cut" = some (QType.TInt none) ∧
    demux_single.parameters.lookup "cut" = some (QType.TInt none) ∧
    demux_paired.parameters.lookup "forward_cut" = some (QType.TInt none) ∧
    demux_paired.parameters.lookup "reverse_cut" = some (QType.TInt none) ∧
    ∀ n : ℤ, (QType.TInt none).acceptsInt n = true :=
  ⟨rfl, rfl, rfl, rfl, rfl, rfl, rfl, rfl, rfl, rfl, fun _ => rfl⟩

/-- Claim C10: both demultiplexing operations declare exactly two
outputs, the second is untrimmed_sequences, and its artifact type is
exactly the type of the operation's multiplexed input. -/
theorem demux_untrimmed_output_type_matches_input :
    demux_single.outputs.length = 2 ∧
    demux_paired.outputs.length = 2 ∧
    demux_single.outputs[1]? = some ("untrimmed_sequences",
      AType.MultiplexedSingleEndBarcodeInSequence) ∧
    demux_paired.outputs[1]? = some ("untrimmed_sequences",
      AType.MultiplexedPairedEndBarcodeInSequence) ∧
    demux_single.outputs[1]?.map Prod.snd =
      demux_single.inputs[0]?.map Prod.snd ∧
    demux_paired.outputs[1]?.map Prod.snd =
      demux_paired.inputs[0]?.map Prod.snd :=
  ⟨rfl, rfl, rfl, rfl, rfl, rfl⟩

end Q2Cutadapt
